import Mathlib

/-!
Shallow embedding of the ItemManagement Flask application
(`src/app.py`, `src/forms.py`): validation engine, query/pagination
engine, auth gate and item lifecycle controller, with theorems checking
the specification's claims against the embedded code.

Conventions of the embedding:
* SQLite rows become Lean structures; the two tables live in a `Db` record
  together with the next AUTOINCREMENT ids.
* Timestamps (`created_at`, SQLite `DATETIME` strings, which compare
  lexicographically, i.e. chronologically) are modelled as `Nat`.
* Python regular expressions from `reject_malicious_input` are translated
  pattern by pattern into decidable matchers over `List Char`; the code
  uppercases the value first (`field.data.upper()`), so every matcher runs
  on the uppercased character list.
* bcrypt (an external library primitive) is modelled as an injective
  derivation `generate_password_hash`; `check_password_hash` compares
  against the derived value, which captures its contract assuming no hash
  collisions.
-/

namespace ItemApp

/-- Python ASCII whitespace, the characters matched by the regex class
backslash-s and stripped by `str.strip()` for ASCII input. -/
def isPySpace (c : Char) : Bool :=
  c == ' ' || c == '\t' || c == '\n' || c == '\r' || c == '\x0b' || c == '\x0c'

/-- Python `str.strip()` (ASCII whitespace view): drop leading and trailing
whitespace. -/
def pyStrip (s : String) : String :=
  ⟨((s.toList.dropWhile isPySpace).reverse.dropWhile isPySpace).reverse⟩

/-- The `strip_filter` of `src/forms.py`: `value.strip() if value else value`. -/
def strip_filter (v : String) : String :=
  if v == "" then v else pyStrip v

/-- Python regex word character (the class backslash-w, ASCII view), used by
the word-boundary assertions in the suspicious patterns. -/
def isWordChar (c : Char) : Bool := c.isAlphanum || c == '_'

/-- Literal occurrence of `w` at the start of `s`. -/
def litHere : List Char → List Char → Bool
  | [], _ => true
  | _ :: _, [] => false
  | c :: w, d :: s => c == d && litHere w s

/-- Literal occurrence of `w` somewhere inside `s` (substring test). -/
def litSome (w : List Char) : List Char → Bool
  | [] => litHere w []
  | d :: s => litHere w (d :: s) || litSome w s

/-- Position `i` of `s` holds a non-word character, or lies outside `s`
(used for regex word boundaries). -/
def nonWordAt (s : List Char) (i : Nat) : Bool :=
  match s[i]? with
  | some c => !isWordChar c
  | none => true

/-- The word `w` occurs at position `i` of `s` with a regex word boundary on
both sides. -/
def wordAt (w s : List Char) (i : Nat) : Bool :=
  litHere w (s.drop i) && (i == 0 || nonWordAt s (i - 1)) && nonWordAt s (i + w.length)

/-- All characters of `s` in positions `[a, b)` satisfy `p`. -/
def rangeAll (p : Char → Bool) (s : List Char) (a b : Nat) : Bool :=
  ((s.drop a).take (b - a)).all p

/-- No newline in positions `[a, b)`: the regex dot does not cross a newline. -/
def noNL (s : List Char) (a b : Nat) : Bool :=
  rangeAll (fun c => !(c == '\n')) s a b

/-- Matcher for the keyword-pair patterns, regex shape: word-boundary `w1`
word-boundary, then dot-star, then word-boundary `w2` word-boundary (the
dot not crossing newlines). -/
def kwPair (w1 w2 : List Char) (s : List Char) : Bool :=
  (List.range (s.length + 1)).any fun i =>
    wordAt w1 s i &&
      (List.range (s.length + 1)).any fun j =>
        Nat.ble (i + w1.length) j && wordAt w2 s j && noNL s (i + w1.length) j

/-- Matcher for the script-tag pattern: literal `<script`, then any run of
non-`>` characters, a `>`, then a newline-free run, then `</script>`
(uppercased literals, since the data is uppercased before matching). -/
def scriptPat (s : List Char) : Bool :=
  (List.range (s.length + 1)).any fun i =>
    litHere "<SCRIPT".toList (s.drop i) &&
      (List.range (s.length + 1)).any fun k =>
        Nat.ble (i + 7) k && rangeAll (fun c => !(c == '>')) s (i + 7) k &&
          (s[k]? == some '>') &&
          (List.range (s.length + 1)).any fun m =>
            Nat.ble (k + 1) m && noNL s (k + 1) m &&
              litHere "</SCRIPT>".toList (s.drop m)

/-- Matcher for the event-handler patterns (`onerror` / `onload`): the word
`w`, optional whitespace, then `=`. -/
def attrEq (w : List Char) (s : List Char) : Bool :=
  (List.range (s.length + 1)).any fun i =>
    litHere w (s.drop i) &&
      (List.range (s.length + 1)).any fun j =>
        Nat.ble (i + w.length) j && rangeAll isPySpace s (i + w.length) j &&
          (s[j]? == some '=')

/-- Matcher for the trailing SQL comment pattern: two dashes followed only by
whitespace up to the end of the string (the end anchor also matches just
before a final newline, which is itself whitespace, so this is equivalent). -/
def sqlCommentPat (s : List Char) : Bool :=
  (List.range (s.length + 1)).any fun i =>
    litHere ['-', '-'] (s.drop i) && (s.drop (i + 2)).all isPySpace

/-- Matcher for the semicolon-DROP pattern: `;`, optional whitespace, `DROP`. -/
def semiDropPat (s : List Char) : Bool :=
  (List.range (s.length + 1)).any fun i =>
    (s[i]? == some ';') &&
      (List.range (s.length + 1)).any fun j =>
        Nat.ble (i + 1) j && rangeAll isPySpace s (i + 1) j &&
          litHere "DROP".toList (s.drop j)

/-- Tail of the boolean-tautology pattern after its opening quote: optional
whitespace, `OR` or `AND`, optional whitespace, an optional quote, a digit
run, an optional quote, optional whitespace, then `=`.  Greedy scanning is
exact here because each component's character set is disjoint from what can
follow it. -/
def tautTail (s : List Char) : Bool :=
  let s1 := s.dropWhile isPySpace
  let rest :=
    if litHere ['O', 'R'] s1 then some (s1.drop 2)
    else if litHere ['A', 'N', 'D'] s1 then some (s1.drop 3)
    else none
  match rest with
  | none => false
  | some s2 =>
    let s3 := s2.dropWhile isPySpace
    let s4 := match s3 with
      | '\'' :: t => t
      | _ => s3
    let s5 := s4.dropWhile Char.isDigit
    let s6 := match s5 with
      | '\'' :: t => t
      | _ => s5
    let s7 := s6.dropWhile isPySpace
    match s7 with
    | '=' :: _ => true
    | _ => false

/-- Matcher for the boolean-tautology injection pattern: a quote somewhere,
followed by `tautTail`. -/
def tautPat (s : List Char) : Bool :=
  (List.range s.length).any fun i =>
    (s[i]? == some '\'') && tautTail (s.drop (i + 1))

/-- The fixed signature list of `reject_malicious_input` in `src/forms.py`:
the thirteen suspicious patterns, searched in the uppercased value. -/
def suspiciousHit (s : String) : Bool :=
  let u := s.toList.map Char.toUpper
  kwPair "UNION".toList "SELECT".toList u ||
  kwPair "DROP".toList "TABLE".toList u ||
  kwPair "INSERT".toList "INTO".toList u ||
  kwPair "UPDATE".toList "SET".toList u ||
  kwPair "DELETE".toList "FROM".toList u ||
  scriptPat u ||
  litSome "JAVASCRIPT:".toList u ||
  attrEq "ONERROR".toList u ||
  attrEq "ONLOAD".toList u ||
  litSome "<IFRAME".toList u ||
  sqlCommentPat u ||
  semiDropPat u ||
  tautPat u

/-- The validation error taxonomy of the specification. -/
inductive VErr where
  | missingField
  | lengthViolation
  | suspiciousInput
  | invalidFormat
  | mismatchViolation
deriving DecidableEq, Repr

/-- The `reject_malicious_input` validator of `src/forms.py`: empty data is
skipped; otherwise any suspicious pattern raises a validation error. -/
def reject_malicious_input (data : String) : Option VErr :=
  if data == "" then none
  else if suspiciousHit data then some VErr.suspiciousInput else none

/-- Validator chain of the `title` field of `ItemForm`: strip filter, then
DataRequired, Length 1..250, and `reject_malicious_input`. -/
def validateTitle (raw : String) : Except VErr String :=
  let data := strip_filter raw
  if data == "" then Except.error VErr.missingField
  else if data.length < 1 || 250 < data.length then Except.error VErr.lengthViolation
  else
    match reject_malicious_input data with
    | some e => Except.error e
    | none => Except.ok data

/-- Validator chain of the `description` field of `ItemForm`: strip filter,
then Length at most 5000 and `reject_malicious_input` (no DataRequired). -/
def validateDescription (raw : String) : Except VErr String :=
  let data := strip_filter raw
  if 5000 < data.length then Except.error VErr.lengthViolation
  else
    match reject_malicious_input data with
    | some e => Except.error e
    | none => Except.ok data

/-- A row of the `items` table. -/
structure Item where
  id : Nat
  title : String
  description : String
  user_id : Option Nat
  created_at : Nat
deriving DecidableEq, Repr

/-- A row of the `users` table. -/
structure UserRow where
  id : Nat
  username : String
  email : String
  password_hash : String
deriving DecidableEq, Repr

/-- The database: both tables in rowid (insertion) order, plus the next
AUTOINCREMENT id of each table. -/
structure Db where
  items : List Item
  users : List UserRow
  nextItemId : Nat
  nextUserId : Nat
deriving DecidableEq, Repr

/-- SQLite `LIKE`: `%` matches any run, `_` matches any single character,
plain characters match ASCII case-insensitively (SQLite's default
collation for `LIKE`); the pattern must cover the whole string. -/
def likeMatch : List Char → List Char → Bool
  | [], s => s.isEmpty
  | c :: p, s =>
    if c == '%' then
      likeMatch p s ||
        match s with
        | [] => false
        | _ :: t => likeMatch (c :: p) t
    else if c == '_' then
      match s with
      | [] => false
      | _ :: t => likeMatch p t
    else
      match s with
      | [] => false
      | d :: t => (c.toUpper == d.toUpper) && likeMatch p t
termination_by p s => p.length + s.length

/-- The items-per-page constant of `src/app.py`. -/
def PAGE_SIZE : Nat := 6

/-- The search condition of `query_items`: `title LIKE ? OR description
LIKE ?` with the parameter `%{search}%`. -/
def likeFilter (search : String) (i : Item) : Bool :=
  likeMatch ('%' :: search.toList ++ ['%']) i.title.toList ||
  likeMatch ('%' :: search.toList ++ ['%']) i.description.toList

/-- The full WHERE predicate of `query_items`: the LIKE condition only when
`search` is truthy (non-empty), and `user_id = ?` only when a user filter
is given. -/
def rowPred (search : String) (uid : Option Nat) (i : Item) : Bool :=
  (search == "" || likeFilter search i) &&
    (match uid with
     | none => true
     | some u => i.user_id == some u)

/-- Comparison of `ORDER BY created_at DESC`.  The SQL names no further sort
key, so equal timestamps carry no ordering constraint; the model uses a
stable sort over the table scan, keeping equal-timestamp rows in rowid
order (the behavior SQLite exhibits for this query). -/
def orderDesc (a b : Item) : Prop := b.created_at ≤ a.created_at

instance : DecidableRel orderDesc := fun a b => Nat.decLe b.created_at a.created_at

instance : IsTotal Item orderDesc := ⟨fun a b => Nat.le_total b.created_at a.created_at⟩

instance : IsTrans Item orderDesc := ⟨fun _ _ _ h1 h2 => Nat.le_trans h2 h1⟩

/-- The filtered item sequence in the order produced by the SELECT of
`query_items`: stable sort by `created_at` descending. -/
def orderedRows (db : Db) (search : String) (uid : Option Nat) : List Item :=
  List.insertionSort orderDesc (db.items.filter (rowPred search uid))

/-- The `query_items` helper of `src/app.py`: COUNT with the WHERE
predicate, then the ordered SELECT with `LIMIT page_size OFFSET
(page-1)*page_size`. -/
def query_items (db : Db) (search : String) (page : Nat) (page_size : Nat)
    (uid : Option Nat) : List Item × Nat :=
  let total := (db.items.filter (rowPred search uid)).length
  let rows := orderedRows db search uid
  ((rows.drop ((page - 1) * page_size)).take page_size, total)

/-- The page-count computation of the `index` route,
`max(1, math.ceil(total / PAGE_SIZE))`, over exact integer arithmetic
(ceiling division). -/
def total_pages (total : Nat) : Nat :=
  max 1 ((total + PAGE_SIZE - 1) / PAGE_SIZE)

/-- The `index` route: strips the search text, clamps the page number to at
least 1, queries page `page` of size `PAGE_SIZE`, and derives the page
count.  Returns (items, total, total_pages). -/
def index (db : Db) (qRaw : String) (pageArg : Int) : List Item × Nat × Nat :=
  let q := pyStrip qRaw
  let page : Nat := if pageArg < 1 then 1 else pageArg.toNat
  let r := query_items db q page PAGE_SIZE none
  (r.1, r.2, total_pages r.2)

/-- The per-field error list of a submitted `ItemForm`, in field order. -/
def itemFormErrors (rawTitle rawDesc : String) : List (String × VErr) :=
  (match validateTitle rawTitle with
   | Except.error e => [("title", e)]
   | Except.ok _ => []) ++
  (match validateDescription rawDesc with
   | Except.error e => [("description", e)]
   | Except.ok _ => [])

/-- The `create` route (authenticated): on a valid form, INSERT the stripped
title and description with the current user as owner and the next
AUTOINCREMENT id; otherwise redisplay with the form errors. -/
def create (db : Db) (current_uid : Nat) (now : Nat) (rawTitle rawDesc : String) :
    Except (List (String × VErr)) Db :=
  match validateTitle rawTitle, validateDescription rawDesc with
  | Except.ok t, Except.ok d =>
    Except.ok { db with
                  items := db.items ++ [⟨db.nextItemId, t, d, some current_uid, now⟩],
                  nextItemId := db.nextItemId + 1 }
  | _, _ => Except.error (itemFormErrors rawTitle rawDesc)

/-- The `view_item` route: `SELECT * FROM items WHERE id = ?`, `none` when
absent (the route then redirects with a warning). -/
def view_item (db : Db) (item_id : Nat) : Option Item :=
  db.items.find? (fun i => i.id == item_id)

/-- Outcome of the `edit` route. -/
inductive EditOutcome where
  | notFound
  | invalid (errs : List (String × VErr))
  | ok (db : Db)
deriving DecidableEq, Repr

/-- The `edit` route (authenticated): look the item up by id only, then on a
valid form run `UPDATE items SET title = ?, description = ? WHERE id = ?`.
The current user is received but never consulted. -/
def edit (db : Db) (_current_uid : Nat) (item_id : Nat) (rawTitle rawDesc : String) :
    EditOutcome :=
  match db.items.find? (fun i => i.id == item_id) with
  | none => EditOutcome.notFound
  | some _ =>
    match validateTitle rawTitle, validateDescription rawDesc with
    | Except.ok t, Except.ok d =>
      EditOutcome.ok
        { db with
            items := db.items.map (fun i =>
              if i.id == item_id then { i with title := t, description := d } else i) }
    | _, _ => EditOutcome.invalid (itemFormErrors rawTitle rawDesc)

/-- The `delete` route (authenticated): `DELETE FROM items WHERE id = ?`,
unconditionally reported as a success.  The current user is received but
never consulted. -/
def delete (db : Db) (_current_uid : Nat) (item_id : Nat) : Db :=
  { db with items := db.items.filter (fun i => !(i.id == item_id)) }

/-- Model of bcrypt password derivation (an external primitive): an
injective tagging of the password, standing for the salted one-way hash. -/
def generate_password_hash (password : String) : String :=
  "$2b$12$" ++ password

/-- Model of bcrypt verification: the stored value is checked against the
derivation of the supplied password. -/
def check_password_hash (h password : String) : Bool :=
  h == generate_password_hash password

/-- The auth error taxonomy of the specification. -/
inductive AuthErr where
  | invalidCredentials
  | duplicateIdentity
deriving DecidableEq, Repr

/-- The `login` route, after form validation: fetch the first user row by
username, verify the password against the stored hash; both failure cases
(unknown username, wrong password) produce the same generic error. -/
def login (db : Db) (username password : String) : Except AuthErr Nat :=
  match db.users.find? (fun u => u.username == username) with
  | some u =>
    if check_password_hash u.password_hash password then Except.ok u.id
    else Except.error AuthErr.invalidCredentials
  | none => Except.error AuthErr.invalidCredentials

/-- The `register` route, after form validation: a single lookup for an
existing username or email prior to the insert; on a hit the database is
left unchanged and registration fails, otherwise the new user row is
inserted with the next AUTOINCREMENT id and the hashed password. -/
def register (db : Db) (username email password : String) : Db × Except AuthErr Nat :=
  match db.users.find? (fun u => u.username == username || u.email == email) with
  | some _ => (db, Except.error AuthErr.duplicateIdentity)
  | none =>
    ({ db with
         users := db.users ++
           [⟨db.nextUserId, username, email, generate_password_hash password⟩],
         nextUserId := db.nextUserId + 1 },
     Except.ok db.nextUserId)

/-! ## Helper lemmas -/

theorem strip_filter_eq (v : String) : strip_filter v = pyStrip v := by
  unfold strip_filter
  by_cases h : v = ""
  · subst h; rfl
  · simp [h]

theorem validateTitle_ok_of (raw : String)
    (h1 : 1 ≤ (pyStrip raw).length) (h2 : (pyStrip raw).length ≤ 250)
    (h3 : suspiciousHit (pyStrip raw) = false) :
    validateTitle raw = Except.ok (pyStrip raw) := by
  have hne : pyStrip raw ≠ "" := by
    intro he
    rw [he] at h1
    simp at h1
  unfold validateTitle reject_malicious_input
  rw [strip_filter_eq]
  simp [hne, h3]
  omega

theorem validateDescription_ok_of (raw : String)
    (h2 : (pyStrip raw).length ≤ 5000)
    (h3 : suspiciousHit (pyStrip raw) = false) :
    validateDescription raw = Except.ok (pyStrip raw) := by
  unfold validateDescription reject_malicious_input
  rw [strip_filter_eq]
  by_cases he : pyStrip raw = ""
  · simp [he]
  · simp [he, h3]
    omega

deriving instance DecidableEq for Except

theorem validateTitle_ok_val {raw t : String} (h : validateTitle raw = Except.ok t) :
    t = pyStrip raw := by
  unfold validateTitle at h
  rw [strip_filter_eq] at h
  dsimp only at h
  split at h
  · exact absurd h (by simp)
  · split at h
    · exact absurd h (by simp)
    · split at h
      · exact absurd h (by simp)
      · cases h
        rfl

theorem validateDescription_ok_val {raw t : String}
    (h : validateDescription raw = Except.ok t) : t = pyStrip raw := by
  unfold validateDescription at h
  rw [strip_filter_eq] at h
  dsimp only at h
  split at h
  · exact absurd h (by simp)
  · split at h
    · exact absurd h (by simp)
    · cases h
      rfl

/-! ## Claim C5 -/

/-- Specification-level predicate, from the spec's words, for comparison
with the code's matcher: the string contains an opening script tag
followed, anywhere later, by a closing script tag (content unconstrained,
newlines included); stated over the uppercased value like the code's
matching. -/
def specScriptFragment (s : String) : Bool :=
  let u := s.toList.map Char.toUpper
  (List.range (u.length + 1)).any fun i =>
    litHere "<SCRIPT>".toList (u.drop i) &&
      (List.range (u.length + 1)).any fun j =>
        Nat.ble (i + 8) j && litHere "</SCRIPT>".toList (u.drop j)

/-- C5 is false as stated: a string containing a script fragment whose body
spans a newline matches none of the thirteen signatures (the pattern's dot
does not cross newlines), so the validator accepts it; both fields accept
the full value. -/
theorem multiline_script_passes_counterexample :
    specScriptFragment "<script>\nalert(1)\n</script>" = true ∧
    reject_malicious_input "<script>\nalert(1)\n</script>" = none ∧
    validateTitle "<script>\nalert(1)\n</script>" =
      Except.ok "<script>\nalert(1)\n</script>" ∧
    validateDescription "<script>\nalert(1)\n</script>" =
      Except.ok "<script>\nalert(1)\n</script>" :=
  ⟨by decide, by decide, by decide, by decide⟩

/-- C5 (amended): every string whose uppercased value matches one of the
thirteen fixed signatures is rejected by `reject_malicious_input` with
SuspiciousInput; in particular a single-line script fragment and a
boolean-tautology fragment are rejected.  (A script fragment whose body
spans a newline is not caught, per the counterexample.) -/
theorem suspicious_patterns_rejected :
    (∀ s : String, suspiciousHit s = true →
        reject_malicious_input s = some VErr.suspiciousInput) ∧
    reject_malicious_input "<script>alert(1)</script>" = some VErr.suspiciousInput ∧
    reject_malicious_input "' OR '1'='1" = some VErr.suspiciousInput := by
  refine ⟨fun s h => ?_, by decide, by decide⟩
  have hne : s ≠ "" := by
    intro he
    rw [he] at h
    exact absurd h (by decide)
  unfold reject_malicious_input
  simp [hne, h]

/-- Witness for C5's amended theorem at a concrete suspicious input. -/
theorem suspicious_patterns_rejected_witness :
    suspiciousHit "1; DROP TABLE users" = true ∧
    reject_malicious_input "1; DROP TABLE users" = some VErr.suspiciousInput :=
  ⟨by decide, suspicious_patterns_rejected.1 "1; DROP TABLE users" (by decide)⟩

/-! ## Claim C6 -/

/-- C6: for every title empty after trimming, the title validator fails with
MissingField and `create` fails, reporting MissingField on the title,
whatever the description is; trimming happens before the required check. -/
theorem empty_title_missing_field (db : Db) (uid now : Nat)
    (rawTitle rawDesc : String) (h : pyStrip rawTitle = "") :
    validateTitle rawTitle = Except.error VErr.missingField ∧
    create db uid now rawTitle rawDesc =
      Except.error (itemFormErrors rawTitle rawDesc) ∧
    ("title", VErr.missingField) ∈ itemFormErrors rawTitle rawDesc := by
  have hv : validateTitle rawTitle = Except.error VErr.missingField := by
    unfold validateTitle
    rw [strip_filter_eq, h]
    rfl
  refine ⟨hv, ?_, ?_⟩
  · unfold create
    rw [hv]
  · unfold itemFormErrors
    rw [hv]
    exact List.mem_append_left _ (List.mem_singleton.mpr rfl)

/-- Witness for C6 at a whitespace-only title. -/
theorem empty_title_missing_field_witness :
    validateTitle "   " = Except.error VErr.missingField ∧
    create ⟨[], [], 1, 1⟩ 1 0 "   " "fine description" =
      Except.error (itemFormErrors "   " "fine description") ∧
    ("title", VErr.missingField) ∈ itemFormErrors "   " "fine description" :=
  empty_title_missing_field ⟨[], [], 1, 1⟩ 1 0 "   " "fine description" (by decide)

/-! ## Claim C1 -/

/-- C1 is false as stated: create stores the stripped title and description,
so reading back an item created from a title with surrounding whitespace
returns the trimmed pair, not the submitted one.  The submitted pair here
satisfies all of C1's premises (trimmed title length 1, trimmed
description length 1, no suspicious pattern). -/
theorem create_read_returns_trimmed_not_raw :
    ((create ⟨[], [], 1, 1⟩ 7 0 " A " "B").toOption.bind
        (fun db' => view_item db' 1)).map (fun i => (i.title, i.description)) =
      some ("A", "B") ∧
    ((" A " : String), ("B" : String)) ≠ (("A" : String), ("B" : String)) :=
  ⟨by decide, by decide⟩

/-- C1 (amended): for every title and description whose trimmed values are
within bounds and unflagged, create by an authenticated user succeeds,
appending the row under the next id, and reading that id back returns
exactly the TRIMMED (title, description) pair.  The id-freshness premise
is the AUTOINCREMENT invariant of the items table. -/
theorem create_then_read_roundtrip_trimmed (db : Db) (uid now : Nat)
    (rawTitle rawDesc : String)
    (hids : ∀ i ∈ db.items, i.id < db.nextItemId)
    (ht1 : 1 ≤ (pyStrip rawTitle).length) (ht2 : (pyStrip rawTitle).length ≤ 250)
    (hd : (pyStrip rawDesc).length ≤ 5000)
    (hst : suspiciousHit (pyStrip rawTitle) = false)
    (hsd : suspiciousHit (pyStrip rawDesc) = false) :
    create db uid now rawTitle rawDesc =
      Except.ok { db with
                    items := db.items ++
                      [⟨db.nextItemId, pyStrip rawTitle, pyStrip rawDesc, some uid, now⟩],
                    nextItemId := db.nextItemId + 1 } ∧
    ∀ db', create db uid now rawTitle rawDesc = Except.ok db' →
      (view_item db' db.nextItemId).map (fun i => (i.title, i.description)) =
        some (pyStrip rawTitle, pyStrip rawDesc) := by
  have hv1 := validateTitle_ok_of rawTitle ht1 ht2 hst
  have hv2 := validateDescription_ok_of rawDesc hd hsd
  have hc : create db uid now rawTitle rawDesc =
      Except.ok { db with
                    items := db.items ++
                      [⟨db.nextItemId, pyStrip rawTitle, pyStrip rawDesc, some uid, now⟩],
                    nextItemId := db.nextItemId + 1 } := by
    unfold create
    rw [hv1, hv2]
  refine ⟨hc, fun db' h => ?_⟩
  rw [hc] at h
  cases h
  unfold view_item
  rw [List.find?_append]
  have hnone : db.items.find? (fun i => i.id == db.nextItemId) = none := by
    rw [List.find?_eq_none]
    intro i hi
    simp only [beq_iff_eq]
    exact Nat.ne_of_lt (hids i hi)
  rw [hnone]
  simp

/-- Witness for C1's amended theorem at a concrete creation. -/
theorem create_then_read_roundtrip_trimmed_witness :
    ((create ⟨[], [], 1, 1⟩ 7 5 "My Title" "A description").toOption.bind
        (fun db' => view_item db' 1)).map (fun i => (i.title, i.description)) =
      some ("My Title", "A description") := by
  have h := create_then_read_roundtrip_trimmed ⟨[], [], 1, 1⟩ 7 5
    "My Title" "A description"
    (by intro i hi; simp at hi) (by decide) (by decide) (by decide)
    (by decide) (by decide)
  have h2 := h.2 _ h.1
  rw [h.1]
  simp only [Except.toOption, Option.bind]
  rw [h2]
  decide

/-! ## Claim C7 -/

/-- C7: login answers with the same generic InvalidCredentials value whether
the username is unknown or the password is wrong for the stored row, and
with the stored user's id when the password verifies. -/
theorem login_generic_failure (db : Db) (un pw : String) :
    ((∀ u ∈ db.users, u.username ≠ un) →
        login db un pw = Except.error AuthErr.invalidCredentials) ∧
    (∀ u, db.users.find? (fun v => v.username == un) = some u →
        check_password_hash u.password_hash pw = false →
        login db un pw = Except.error AuthErr.invalidCredentials) ∧
    (∀ u, db.users.find? (fun v => v.username == un) = some u →
        check_password_hash u.password_hash pw = true →
        login db un pw = Except.ok u.id) := by
  refine ⟨fun h => ?_, fun u hf hc => ?_, fun u hf hc => ?_⟩
  · unfold login
    have hn : db.users.find? (fun v => v.username == un) = none := by
      rw [List.find?_eq_none]
      intro x hx
      simp only [beq_iff_eq]
      exact h x hx
    rw [hn]
  · unfold login
    rw [hf]
    simp [hc]
  · unfold login
    rw [hf]
    simp [hc]

/-- Database after registering alice, used by the auth witnesses. -/
def aliceDb : Db :=
  ⟨[], [⟨1, "alice", "alice@example.com", generate_password_hash "password123"⟩], 1, 2⟩

/-- Witness for C7: the spec's alice scenario. -/
theorem login_generic_failure_witness :
    register ⟨[], [], 1, 1⟩ "alice" "alice@example.com" "password123" =
        (aliceDb, Except.ok 1) ∧
    login aliceDb "alice" "wrongpassword" = Except.error AuthErr.invalidCredentials ∧
    login aliceDb "alice" "password123" = Except.ok 1 ∧
    login aliceDb "bob" "password123" = Except.error AuthErr.invalidCredentials :=
  ⟨by decide,
   (login_generic_failure aliceDb "alice" "wrongpassword").2.1
     ⟨1, "alice", "alice@example.com", generate_password_hash "password123"⟩
     (by decide) (by decide),
   (login_generic_failure aliceDb "alice" "password123").2.2
     ⟨1, "alice", "alice@example.com", generate_password_hash "password123"⟩
     (by decide) (by decide),
   (login_generic_failure aliceDb "bob" "password123").1 (by decide)⟩

/-! ## Claim C8 -/

/-- C8: register fails with DuplicateIdentity when the username or email
already exists — the single pre-insert lookup — leaving the database
unchanged; otherwise the new user row is appended. -/
theorem register_duplicate_identity (db : Db) (un em pw : String) :
    ((∃ u ∈ db.users, u.username = un ∨ u.email = em) →
        register db un em pw = (db, Except.error AuthErr.duplicateIdentity)) ∧
    ((∀ u ∈ db.users, u.username ≠ un ∧ u.email ≠ em) →
        register db un em pw =
          ({ db with
               users := db.users ++
                 [⟨db.nextUserId, un, em, generate_password_hash pw⟩],
               nextUserId := db.nextUserId + 1 },
           Except.ok db.nextUserId)) := by
  constructor
  · rintro ⟨u, hu, hcase⟩
    unfold register
    have hs : (db.users.find? (fun v => v.username == un || v.email == em)).isSome := by
      rw [List.find?_isSome]
      refine ⟨u, hu, ?_⟩
      rcases hcase with h | h <;> simp [h]
    obtain ⟨v, hv⟩ := Option.isSome_iff_exists.mp hs
    rw [hv]
  · intro h
    unfold register
    have hn : db.users.find? (fun v => v.username == un || v.email == em) = none := by
      rw [List.find?_eq_none]
      intro x hx
      have hx2 := h x hx
      simp [hx2.1, hx2.2]
    rw [hn]

/-- Witness for C8: duplicate and fresh registrations against alice's table. -/
theorem register_duplicate_identity_witness :
    register aliceDb "alice" "other@example.com" "hunter2hunter2" =
      (aliceDb, Except.error AuthErr.duplicateIdentity) ∧
    register aliceDb "bob" "bob@example.com" "hunter2hunter2" =
      ({ aliceDb with
           users := aliceDb.users ++
             [⟨aliceDb.nextUserId, "bob", "bob@example.com",
                generate_password_hash "hunter2hunter2"⟩],
           nextUserId := aliceDb.nextUserId + 1 },
       Except.ok aliceDb.nextUserId) :=
  ⟨(register_duplicate_identity aliceDb "alice" "other@example.com" "hunter2hunter2").1
     ⟨⟨1, "alice", "alice@example.com", generate_password_hash "password123"⟩,
       by decide, Or.inl rfl⟩,
   (register_duplicate_identity aliceDb "bob" "bob@example.com" "hunter2hunter2").2
     (by decide)⟩

/-! ## Claim C9 -/

/-- C9: a successful edit changes only the title and description of the rows
carrying the addressed id — their id, owner and creation time are kept —
while every other row, the users table and the id counters are unchanged. -/
theorem edit_frame_condition (db : Db) (cu iid : Nat) (rawT rawD : String)
    (db' : Db) (h : edit db cu iid rawT rawD = EditOutcome.ok db') :
    db'.users = db.users ∧ db'.nextItemId = db.nextItemId ∧
    db'.nextUserId = db.nextUserId ∧
    db'.items.length = db.items.length ∧
    (∀ (k : Nat) (i : Item), db.items[k]? = some i → i.id ≠ iid →
        db'.items[k]? = some i) ∧
    (∀ (k : Nat) (i : Item), db.items[k]? = some i → i.id = iid →
        db'.items[k]? =
          some { i with title := pyStrip rawT, description := pyStrip rawD }) := by
  unfold edit at h
  cases hf : db.items.find? (fun i => i.id == iid) with
  | none => simp [hf] at h
  | some w =>
    cases hvt : validateTitle rawT with
    | error e => simp [hf, hvt] at h
    | ok t =>
      cases hvd : validateDescription rawD with
      | error e => simp [hf, hvt, hvd] at h
      | ok d =>
        simp only [hf, hvt, hvd, EditOutcome.ok.injEq] at h
        subst h
        have ht := validateTitle_ok_val hvt
        have hd := validateDescription_ok_val hvd
        subst ht
        subst hd
        refine ⟨rfl, rfl, rfl, List.length_map .., fun k i hk hne => ?_,
          fun k i hk heq => ?_⟩
        · rw [List.getElem?_map, hk]
          simp [hne]
        · rw [List.getElem?_map, hk]
          simp [heq]

/-- Concrete two-item database for the C9 witness. -/
def dbNine : Db := ⟨[⟨1, "a", "", some 1, 10⟩, ⟨2, "b", "x", some 2, 20⟩], [], 3, 1⟩

/-- Result of editing item 1 of `dbNine`. -/
def dbNine' : Db := ⟨[⟨1, "New", "D", some 1, 10⟩, ⟨2, "b", "x", some 2, 20⟩], [], 3, 1⟩

/-- Witness for C9: editing item 1 rewrites its title and description and
leaves item 2 untouched. -/
theorem edit_frame_condition_witness :
    dbNine'.items[1]? = some (⟨2, "b", "x", some 2, 20⟩ : Item) ∧
    dbNine'.items[0]? = some (⟨1, pyStrip "New", pyStrip "D", some 1, 10⟩ : Item) ∧
    pyStrip "New" = "New" ∧ pyStrip "D" = "D" :=
  ⟨(edit_frame_condition dbNine 5 1 "New" "D" dbNine' (by decide)).2.2.2.2.1
     1 ⟨2, "b", "x", some 2, 20⟩ (by decide) (by decide),
   (edit_frame_condition dbNine 5 1 "New" "D" dbNine' (by decide)).2.2.2.2.2
     0 ⟨1, "a", "", some 1, 10⟩ (by decide) (by decide),
   by decide, by decide⟩

/-! ## Claim C10 -/

/-- C10: edit and delete address items purely by id: the current user is
never consulted (identical outcomes for any two users), an item owned by a
different user is still removed by delete, and a valid edit of it
succeeds. -/
theorem edit_delete_ignore_ownership (db : Db) (u1 u2 iid : Nat)
    (rawT rawD : String) :
    edit db u1 iid rawT rawD = edit db u2 iid rawT rawD ∧
    delete db u1 iid = delete db u2 iid ∧
    (∀ i ∈ db.items, i.id = iid → i.user_id ≠ some u1 →
        i ∉ (delete db u1 iid).items ∧
        (validateTitle rawT = Except.ok (pyStrip rawT) →
          validateDescription rawD = Except.ok (pyStrip rawD) →
          ∃ db', edit db u1 iid rawT rawD = EditOutcome.ok db')) := by
  refine ⟨rfl, rfl, fun i hi hid _ => ⟨fun hmem => ?_, fun hvt hvd => ?_⟩⟩
  · unfold delete at hmem
    rw [List.mem_filter] at hmem
    rw [hid] at hmem
    simp at hmem
  · unfold edit
    have hs : (db.items.find? (fun j => j.id == iid)).isSome := by
      rw [List.find?_isSome]
      exact ⟨i, hi, by simp [hid]⟩
    obtain ⟨v, hv⟩ := Option.isSome_iff_exists.mp hs
    rw [hv, hvt, hvd]
    exact ⟨_, rfl⟩

/-- One item owned by user 2, for the C10 witness. -/
def otherOwned : Db := ⟨[⟨1, "Owned by two", "d", some 2, 3⟩], [], 2, 1⟩

/-- Witness for C10: user 1 deletes and edits user 2's item. -/
theorem edit_delete_ignore_ownership_witness :
    (⟨1, "Owned by two", "d", some 2, 3⟩ : Item) ∉ (delete otherOwned 1 1).items ∧
    ∃ db', edit otherOwned 1 1 "New title" "New d" = EditOutcome.ok db' := by
  have h := (edit_delete_ignore_ownership otherOwned 1 9 1 "New title" "New d").2.2
    ⟨1, "Owned by two", "d", some 2, 3⟩ (by decide) (by decide) (by decide)
  exact ⟨h.1, h.2 (by decide) (by decide)⟩

/-! ## Claim C2 -/

/-- Thirteen items with distinct timestamps: the concrete pagination
scenario of the specification. -/
def db13 : Db :=
  ⟨(List.range 13).map (fun k => ⟨k + 1, "t", "", none, k + 1⟩), [], 14, 1⟩

theorem total_pages_eq_ceil (t : Nat) :
    (total_pages t : Int) = max 1 ⌈(t : ℚ) / (PAGE_SIZE : ℚ)⌉ := by
  have h6 : (0 : ℚ) < 6 := by norm_num
  have hm := Nat.div_add_mod (t + 5) 6
  have hmod : (t + 5) % 6 < 6 := Nat.mod_lt _ (by norm_num)
  have ht1 : t ≤ 6 * ((t + 5) / 6) := by omega
  have ht2 : 6 * ((t + 5) / 6) ≤ t + 5 := by omega
  have hceil : ⌈(t : ℚ) / (6 : ℚ)⌉ = (((t + 5) / 6 : Nat) : Int) := by
    set n : Nat := (t + 5) / 6 with hn
    rw [Int.ceil_eq_iff]
    have hq2 : (6 : ℚ) * (n : ℚ) ≤ (t : ℚ) + 5 := by
      have hb : ((6 * n : Nat) : ℚ) ≤ ((t + 5 : Nat) : ℚ) := Nat.cast_le.mpr ht2
      simpa using hb
    have hq1 : (t : ℚ) ≤ 6 * (n : ℚ) := by
      have hb : ((t : Nat) : ℚ) ≤ ((6 * n : Nat) : ℚ) := Nat.cast_le.mpr ht1
      simpa using hb
    constructor
    · rw [lt_div_iff₀ h6, Int.cast_natCast]
      linarith
    · rw [div_le_iff₀ h6, Int.cast_natCast]
      linarith
  have hps : ((PAGE_SIZE : Nat) : ℚ) = (6 : ℚ) := by norm_num [PAGE_SIZE]
  rw [hps, hceil]
  unfold total_pages PAGE_SIZE
  rw [show t + 6 - 1 = t + 5 from by omega, Nat.cast_max]
  norm_num

/-- C2: page `page` of size `ps` is the slice of the ordered filtered
sequence at offset `(page-1)*ps` of at most `ps` rows; the count is the
number of matching rows, independent of the page; a page beyond range is
empty; the derived page count is `max 1 (ceil (total / PAGE_SIZE))`, which
is 1 even at zero rows; and the thirteen-item scenario pages as the spec
says. -/
theorem query_items_pagination_spec (db : Db) (s : String) (uf : Option Nat)
    (page ps : Nat) (hp : 1 ≤ page) (hps : 1 ≤ ps) :
    (query_items db s page ps uf).1 =
        ((orderedRows db s uf).drop ((page - 1) * ps)).take ps ∧
    (query_items db s page ps uf).1.length ≤ ps ∧
    (query_items db s page ps uf).2 = (db.items.filter (rowPred s uf)).length ∧
    ((db.items.filter (rowPred s uf)).length ≤ (page - 1) * ps →
        (query_items db s page ps uf).1 = []) ∧
    ((total_pages (query_items db s page ps uf).2 : Int) =
        max 1 ⌈((query_items db s page ps uf).2 : ℚ) / (PAGE_SIZE : ℚ)⌉) ∧
    total_pages 0 = 1 ∧
    (query_items db13 "" 1 6 none).1.length = 6 ∧
    (query_items db13 "" 3 6 none).1.length = 1 ∧
    (query_items db13 "" 4 6 none).1 = [] ∧
    (query_items db13 "" 4 6 none).2 = 13 ∧
    total_pages 13 = 3 := by
  refine ⟨rfl, ?_, rfl, ?_, total_pages_eq_ceil _, by decide, by decide, by decide,
    by decide, by decide, by decide⟩
  · show (((orderedRows db s uf).drop ((page - 1) * ps)).take ps).length ≤ ps
    rw [List.length_take]
    exact min_le_left _ _
  · intro h
    show ((orderedRows db s uf).drop ((page - 1) * ps)).take ps = []
    rw [List.drop_eq_nil_of_le, List.take_nil]
    unfold orderedRows
    rw [List.length_insertionSort]
    exact h

/-- Witness for C2 at page 2 of the thirteen-item database. -/
theorem query_items_pagination_spec_witness :
    (query_items db13 "" 2 6 none).2 = (db13.items.filter (rowPred "" none)).length ∧
    total_pages 13 = 3 := by
  have h := query_items_pagination_spec db13 "" none 2 6 (by decide) (by decide)
  exact ⟨h.2.2.1, h.2.2.2.2.2.2.2.2.2.2⟩

/-! ## Claim C3 -/

/-- Two items sharing one timestamp, stored in id order. -/
def dbTie : Db := ⟨[⟨1, "a", "", none, 5⟩, ⟨2, "b", "", none, 5⟩], [], 3, 1⟩

/-- C3 is false as stated: with two items of equal creation time the listing
returns them in id-ASCENDING order — the SQL orders by `created_at DESC`
alone and names no id tiebreak, so equal timestamps keep table-scan
order. -/
theorem order_ties_not_id_descending :
    ((query_items dbTie "" 1 6 none).1.map (fun i => i.id)) = [1, 2] ∧
    ([1, 2] : List Nat) ≠ [2, 1] := ⟨by decide, by decide⟩

/-- C3 (amended): the listing is sorted by creation time descending and is a
permutation of the filtered rows, but the code applies no id tiebreak:
rows with equal creation time appear in table-scan (id-insertion) order,
as the `dbTie` conjunct shows; the order is deterministic only as the
stable-sort order of the scan. -/
theorem orderedRows_sorted_created_desc (db : Db) (s : String) (uf : Option Nat) :
    List.Pairwise (fun a b : Item => b.created_at ≤ a.created_at)
      (orderedRows db s uf) ∧
    (orderedRows db s uf).Perm (db.items.filter (rowPred s uf)) ∧
    orderedRows dbTie "" none =
      [⟨1, "a", "", none, 5⟩, ⟨2, "b", "", none, 5⟩] :=
  ⟨List.sorted_insertionSort orderDesc _, List.perm_insertionSort orderDesc _,
   by decide⟩

/-! ## Claim C4 -/

/-- Case-insensitive (ASCII) literal occurrence of `w` at the start of `s`. -/
def prefCI : List Char → List Char → Bool
  | [], _ => true
  | _ :: _, [] => false
  | c :: w, d :: s => (c.toUpper == d.toUpper) && prefCI w s

/-- Case-insensitive (ASCII) substring occurrence of `w` in `s`. -/
def subCI (w : List Char) : List Char → Bool
  | [] => prefCI w []
  | d :: s => prefCI w (d :: s) || subCI w s

/-- A LIKE pattern free of the wildcard characters percent and underscore. -/
def noWild (w : List Char) : Bool := w.all (fun c => !(c == '%') && !(c == '_'))

theorem likeMatch_pct (s : List Char) : likeMatch ['%'] s = true := by
  induction s with
  | nil => simp [likeMatch]
  | cons d t ih => simp [likeMatch, ih]

theorem likeMatch_trailing_pct :
    ∀ w : List Char, noWild w = true →
      ∀ s, likeMatch (w ++ ['%']) s = prefCI w s := by
  intro w
  induction w with
  | nil =>
    intro _ s
    simpa [prefCI] using likeMatch_pct s
  | cons c w ih =>
    intro hw s
    rw [noWild, List.all_cons] at hw
    simp only [Bool.and_eq_true] at hw
    obtain ⟨⟨h1, h2⟩, h3⟩ := hw
    rw [Bool.not_eq_true'] at h1 h2
    have ih' := ih h3
    cases s with
    | nil => simp [likeMatch, prefCI, h1, h2]
    | cons d t => simp [likeMatch, prefCI, h1, h2, ih' t]

theorem likeMatch_wrapped (w : List Char) (hw : noWild w = true) :
    ∀ s, likeMatch ('%' :: (w ++ ['%'])) s = subCI w s := by
  intro s
  induction s with
  | nil => simp [likeMatch, subCI, likeMatch_trailing_pct w hw]
  | cons d t ih => simp [likeMatch, subCI, likeMatch_trailing_pct w hw, ih]

theorem prefCI_iff (w : List Char) :
    ∀ s, prefCI w s = true ↔ (w.map Char.toUpper) <+: (s.map Char.toUpper) := by
  induction w with
  | nil => intro s; simp [prefCI]
  | cons c w ih =>
    intro s
    cases s with
    | nil => simp [prefCI]
    | cons d t => simp [prefCI, List.cons_prefix_cons, ih t]

theorem subCI_iff (w : List Char) :
    ∀ s, subCI w s = true ↔ (w.map Char.toUpper) <:+: (s.map Char.toUpper) := by
  intro s
  induction s with
  | nil => simp [subCI, prefCI_iff w []]
  | cons d t ih =>
    simp only [subCI, Bool.or_eq_true, prefCI_iff w (d :: t), ih, List.map_cons]
    rw [List.infix_cons_iff]

/-- The item titled "ABC" of the C4 counterexample. -/
def itemABC : Item := ⟨1, "ABC", "", none, 1⟩

/-- One-item database around `itemABC`. -/
def dbABC : Db := ⟨[itemABC], [], 2, 1⟩

/-- C4 is false as stated: the search text is interpolated into a LIKE
pattern, so an underscore in it acts as a single-character wildcard.
Searching "A_C" returns the item titled "ABC", although "A_C" is a
substring (case-insensitively) neither of "ABC" nor of the empty
description. -/
theorem search_wildcard_counterexample :
    (query_items dbABC "A_C" 1 6 none).1 = [itemABC] ∧
    ¬ ("A_C".toList.map Char.toUpper <:+: "ABC".toList.map Char.toUpper) ∧
    ¬ ("A_C".toList.map Char.toUpper <:+: ([] : List Char)) := by
  have ha : rowPred "A_C" none itemABC = true := by
    simp +decide [rowPred, likeFilter, likeMatch, itemABC]
  have hfil : dbABC.items.filter (rowPred "A_C" none) = [itemABC] := by
    show [itemABC].filter (rowPred "A_C" none) = [itemABC]
    rw [List.filter_cons_of_pos ha]
    rfl
  refine ⟨?_, ?_, ?_⟩
  · show ((List.insertionSort orderDesc
        (dbABC.items.filter (rowPred "A_C" none))).drop ((1 - 1) * 6)).take 6 =
      [itemABC]
    rw [hfil]
    rfl
  · rw [← subCI_iff]
    decide
  · rw [show ([] : List Char) = "".toList.map Char.toUpper from rfl, ← subCI_iff]
    decide

/-- The "Alpha Widget" item of the search scenario. -/
def itemAlphaWidget : Item := ⟨1, "Alpha Widget", "", none, 1⟩

/-- The "Beta Gadget" item of the search scenario. -/
def itemBetaGadget : Item := ⟨2, "Beta Gadget", "", none, 2⟩

/-- Two-item database for the search scenario. -/
def dbWidget : Db := ⟨[itemAlphaWidget, itemBetaGadget], [], 3, 1⟩

/-- C4 (amended): for a non-empty search term free of LIKE wildcards, the
filter admits exactly the rows whose title or description contains the
term as an ASCII case-insensitive substring; an empty term applies no
filter; and the Widget scenario returns exactly the "Alpha Widget" item.
A term containing percent or underscore is instead interpreted as a LIKE
pattern (see the counterexample). -/
theorem search_substring_no_wildcards (w : String) (i : Item)
    (hw : w ≠ "") (hnw : noWild w.toList = true) :
    (rowPred w none i = true ↔
      ((w.toList.map Char.toUpper) <:+: (i.title.toList.map Char.toUpper) ∨
       (w.toList.map Char.toUpper) <:+: (i.description.toList.map Char.toUpper))) ∧
    rowPred "" none i = true ∧
    (query_items dbWidget "Widget" 1 6 none).1 = [itemAlphaWidget] := by
  have hwidget : (query_items dbWidget "Widget" 1 6 none).1 = [itemAlphaWidget] := by
    have ha : rowPred "Widget" none itemAlphaWidget = true := by
      simp +decide [rowPred, likeFilter, likeMatch, itemAlphaWidget]
    have hb : rowPred "Widget" none itemBetaGadget = false := by
      simp +decide [rowPred, likeFilter, likeMatch, itemBetaGadget]
    have hfil : dbWidget.items.filter (rowPred "Widget" none) = [itemAlphaWidget] := by
      show [itemAlphaWidget, itemBetaGadget].filter (rowPred "Widget" none) =
        [itemAlphaWidget]
      rw [List.filter_cons_of_pos ha, List.filter_cons_of_neg (by simp [hb])]
      rfl
    show ((List.insertionSort orderDesc
        (dbWidget.items.filter (rowPred "Widget" none))).drop ((1 - 1) * 6)).take 6 =
      [itemAlphaWidget]
    rw [hfil]
    rfl
  refine ⟨?_, by simp [rowPred], hwidget⟩
  have hww : (w == "") = false := by simp [hw]
  unfold rowPred likeFilter
  rw [hww]
  simp only [List.cons_append, Bool.false_or, Bool.and_true,
    likeMatch_wrapped w.toList hnw, Bool.or_eq_true, subCI_iff]

/-- Witness for C4's amended theorem: the term "Widget" against the
"Alpha Widget" row. -/
theorem search_substring_no_wildcards_witness :
    (rowPred "Widget" none itemAlphaWidget = true ↔
      (("Widget".toList.map Char.toUpper) <:+:
          (itemAlphaWidget.title.toList.map Char.toUpper) ∨
       ("Widget".toList.map Char.toUpper) <:+:
          (itemAlphaWidget.description.toList.map Char.toUpper))) ∧
    rowPred "" none itemAlphaWidget = true :=
  ⟨(search_substring_no_wildcards "Widget" itemAlphaWidget (by decide) (by decide)).1,
   (search_substring_no_wildcards "Widget" itemAlphaWidget (by decide) (by decide)).2.1⟩

end ItemApp
